import Mathlib

/-!
Verification of the telegram-itmo-bot repository against its specification.

The development shallowly embeds the Python sources:
  * `main.py` — user registry persistence, class formatting, schedule lookup
    with its live-fetcher / static fallback logic;
  * `web_server.py` — the webhook HTTP handler and the queue/worker system;
  * `itmo_schedule.py` — the lesson parsers, the week-schedule loop and the
    authentication short-circuit of `ITMOScheduleFetcher`.

Python dictionaries/JSON payloads are embedded as the inductive `JVal`;
Python exceptions (`KeyError`, `TypeError`, `AttributeError`) are embedded
with `Except PyErr`.  Logging calls and status timestamps are elided: they
do not influence any return value or any queue content.
-/

/-- Lower-cases a string character-wise (model of Python str.lower; the
inputs compared in this development are ASCII). -/
def strLower (s : String) : String := ⟨s.data.map Char.toLower⟩

/-- Model of Python s.lower()[:n]: lower-case, then keep the first n
characters. -/
def lowerTake (s : String) (n : Nat) : String := ⟨(s.data.map Char.toLower).take n⟩

/-- Whether the first list is a prefix-match of the second, character by
character. -/
def startsWithChars : List Char → List Char → Bool
  | [], _ => true
  | _ :: _, [] => false
  | a :: as, b :: bs => a == b && startsWithChars as bs

/-- Whether `needle` occurs as a contiguous run inside the list. -/
def hasInfixChars (needle : List Char) : List Char → Bool
  | [] => needle.isEmpty
  | c :: cs => startsWithChars needle (c :: cs) || hasInfixChars needle cs

/-- Model of the Python substring test `needle in hay`. -/
def containsSub (hay needle : String) : Bool := hasInfixChars needle.data hay.data

/-- Embedded JSON/Python value: strings, integers, `None`, lists and
(insertion-ordered) dictionaries with string keys. -/
inductive JVal : Type where
  | null
  | str (s : String)
  | num (n : Int)
  | arr (xs : List JVal)
  | obj (fields : List (String × JVal))

/-- The Python exception kinds raised by the embedded code paths. -/
inductive PyErr : Type where
  | keyError
  | typeError
  | attrError

/-- Python truthiness of an embedded value (empty/zero/None are falsy). -/
def JVal.truthy : JVal → Bool
  | .null => false
  | .str s => !(s == "")
  | .num n => !(n == 0)
  | .arr xs => !xs.isEmpty
  | .obj fs => !fs.isEmpty

/-- First value stored under key `k` (dictionaries keep insertion order;
lookup sees the first binding, as in Python after deduplicated inserts). -/
def lookupField (k : String) : List (String × JVal) → Option JVal
  | [] => none
  | (k2, v) :: rest => if k2 == k then some v else lookupField k rest

/-- Model of the Python subscript `j[k]`: `KeyError` on a missing dictionary
key, `TypeError` when `j` is not a dictionary. -/
def JVal.item (j : JVal) (k : String) : Except PyErr JVal :=
  match j with
  | .obj fs =>
    match lookupField k fs with
    | some v => .ok v
    | none => .error .keyError
  | _ => .error .typeError

/-- Model of the Python call `j.get(k, d)`: defaulting dictionary access;
`AttributeError` when `j` is not a dictionary. -/
def JVal.getD (j : JVal) (k : String) (d : JVal) : Except PyErr JVal :=
  match j with
  | .obj fs =>
    match lookupField k fs with
    | some v => .ok v
    | none => .ok d
  | _ => .error .attrError

/-- Model of the Python call `j.get(k)` (default `None`). -/
def JVal.get1 (j : JVal) (k : String) : Except PyErr JVal := j.getD k .null

/-- Model of the Python membership test `k in j`: key test on dictionaries,
element test on lists, substring test on strings, `TypeError` otherwise. -/
def JVal.memKey (j : JVal) (k : String) : Except PyErr Bool :=
  match j with
  | .obj fs => .ok (fs.any (fun p => p.1 == k))
  | .arr xs => .ok (xs.any (fun v => match v with | .str s => s == k | _ => false))
  | .str s => .ok (containsSub s k)
  | _ => .error .typeError

/-- Model of Python iteration `for x in j`: lists yield their elements,
dictionaries their keys, strings their characters; `TypeError` otherwise. -/
def JVal.iter : JVal → Except PyErr (List JVal)
  | .arr xs => .ok xs
  | .obj fs => .ok (fs.map (fun p => .str p.1))
  | .str s => .ok (s.data.map (fun c => .str ⟨[c]⟩))
  | _ => .error .typeError

/-- Model of the Python call `j.keys()` (`AttributeError` off dictionaries). -/
def JVal.keys : JVal → Except PyErr (List String)
  | .obj fs => .ok (fs.map (fun p => p.1))
  | _ => .error .attrError

/-- Python `==` between an embedded value and an integer. -/
def JVal.eqInt (j : JVal) (n : Int) : Bool :=
  match j with
  | .num m => m == n
  | _ => false

/-- Python `==` between an embedded value and a string. -/
def JVal.eqStr (j : JVal) (s : String) : Bool :=
  match j with
  | .str t => t == s
  | _ => false

/-- Python `!=` between an embedded value and a string. -/
def JVal.neqStr (j : JVal) (s : String) : Bool :=
  match j with
  | .str t => !(t == s)
  | _ => true

/-- Model of Python str() / f-string interpolation of an embedded value.
The repr of containers is abstracted (no embedded code path interpolates a
container). -/
def pyStr : JVal → String
  | .null => "None"
  | .str s => s
  | .num n => toString n
  | .arr _ => "[...]"
  | .obj _ => "{...}"

/-- Embeds `format_class_info` (main.py lines 164-183): a dict holding a
`window` key renders as a free-window line; otherwise a class block with
subject, time, optional room (suppressed when equal to the room
placeholder), optional address (same suppression) and optional teacher. -/
def format_class_info (class_item : JVal) : Except PyErr String := do
  if (← class_item.memKey ("window")) then
    return "🪟 Окно " ++ pyStr (← class_item.item ("window")) ++ " (" ++
      pyStr (← class_item.item ("duration")) ++ ")"
  else
    let mut result := "📚 " ++ pyStr (← class_item.getD ("subject") (.str ("Предмет не указан"))) ++ "\n"
    result := result ++ "⏰ " ++ pyStr (← class_item.getD ("time") (.str ("Время не указано")))
    if (← class_item.memKey ("room")) then
      let room ← class_item.item ("room")
      if room.neqStr ("Аудитория не указана") then
        result := result ++ " • Ауд. " ++ pyStr room
    result := result ++ "\n"
    if (← class_item.memKey ("address")) then
      let address ← class_item.item ("address")
      if address.neqStr ("Адрес не указан") then
        result := result ++ "📍 " ++ pyStr address ++ "\n"
    if (← class_item.memKey ("teacher")) then
      result := result ++ "👤 " ++ pyStr (← class_item.item ("teacher")) ++ "\n"
    return result

/-- Appends a formatted block plus a blank separator per class, as the
response-building loops of `get_schedule_for_date` do (main.py lines
210-211 and 241-242). -/
def render_classes (header : String) : List JVal → Except PyErr String
  | [] => .ok header
  | class_item :: rest => do
    let block ← format_class_info class_item
    let tail ← render_classes (header ++ block ++ "\n") rest
    return tail

/-- Embeds the inner day loop of the static branch (main.py lines 231-244):
the first day whose `day` equals the weekday name answers; an empty class
list answers with the day's `note` (default `Нет занятий`). -/
def find_day (header weekday_name : String) : List JVal → Except PyErr (Option String)
  | [] => .ok none
  | d :: rest => do
    if (← d.item ("day")).eqStr weekday_name then
      let classes ← d.item ("classes")
      if !classes.truthy then
        let note ← d.getD ("note") (.str ("Нет занятий"))
        return some (header ++ pyStr note)
      else
        let items ← classes.iter
        return some (← render_classes header items)
    else
      find_day header weekday_name rest

/-- Embeds the outer week loop of the static branch (main.py lines
228-244): the first week whose `week` equals the current week type is
searched for the weekday. -/
def find_week (header weekday_name : String) (current_week_type : Int) :
    List JVal → Except PyErr (Option String)
  | [] => .ok none
  | w :: rest => do
    if (← w.item ("week")).eqInt current_week_type then
      let days ← (← w.item ("days")).iter
      match (← find_day header weekday_name days) with
      | some r => return some r
      | none => find_week header weekday_name current_week_type rest
    else
      find_week header weekday_name current_week_type rest

/-- Embeds the static lookup body (main.py lines 225-246): index
`SCHEDULE_DATA` with the literal key `schedule`, iterate the weeks, and
fall out to the not-found message when no week/day matches. -/
def static_lookup (sd : JVal) (weekday_name date_formatted : String)
    (current_week_type : Int) : Except PyErr String := do
  let header := "📅 " ++ weekday_name ++ " (" ++ date_formatted ++ ")\n\n"
  let weeks ← (← sd.item ("schedule")).iter
  match (← find_week header weekday_name current_week_type weeks) with
  | some r => return r
  | none => return "❌ Расписание для " ++ weekday_name ++ " не найдено"

/-- Embeds the static part of `get_schedule_for_date` (main.py lines
221-251): a missing or falsy `SCHEDULE_DATA` yields the not-loaded
message; a Python exception inside the lookup is caught by the enclosing
`except Exception` and yields the generic error string. -/
def static_schedule_response (SCHEDULE_DATA : Option JVal)
    (weekday_name date_formatted : String) (current_week_type : Int) : String :=
  match SCHEDULE_DATA with
  | none => "❌ Расписание не загружено. Проверьте настройки ITMO_LOGIN/ITMO_PASSWORD или SCHEDULE_JSON"
  | some sd =>
    if !sd.truthy then
      "❌ Расписание не загружено. Проверьте настройки ITMO_LOGIN/ITMO_PASSWORD или SCHEDULE_JSON"
    else
      match static_lookup sd weekday_name date_formatted current_week_type with
      | .ok s => s
      | .error _ => "❌ Ошибка при получении расписания"

/-- Outcome of the call `schedule_fetcher.get_schedule_for_date(...)` as
observed by main.py: the fetcher either returned a value (`None` or the
schedule dict — every fetcher failure path returns `None`) or raised. -/
inductive FetchOutcome : Type where
  | fetched (schedule_data : Option JVal)
  | raised

/-- Embeds the fetcher branch of `get_schedule_for_date` (main.py lines
204-215): render when the result is truthy and carries truthy `classes`,
otherwise answer `Нет занятий`; an error propagates to the surrounding
`except` (main.py lines 216-219) which falls through to the static path. -/
def fetcher_branch (schedule_data : Option JVal) (header : String) :
    Except PyErr String := do
  match schedule_data with
  | none => return header ++ "🆓 Нет занятий"
  | some sd =>
    if !sd.truthy then
      return header ++ "🆓 Нет занятий"
    else
      let cls ← sd.get1 ("classes")
      if !cls.truthy then
        return header ++ "🆓 Нет занятий"
      else
        let items ← (← sd.item ("classes")).iter
        render_classes header items

/-- Embeds `get_schedule_for_date` (main.py lines 185-251) after a
successful date parse (the `ValueError` branch for malformed date strings
is outside this model): when a fetcher is configured its branch answers
unless it raises, in which case — and only in which case — the static
branch runs; with no fetcher the static branch runs directly. -/
def get_schedule_for_date (fetch : Option FetchOutcome) (SCHEDULE_DATA : Option JVal)
    (weekday_name date_formatted : String) (current_week_type : Int) : String :=
  let header := "📅 " ++ weekday_name ++ " (" ++ date_formatted ++ ")\n\n"
  match fetch with
  | some (.fetched sdata) =>
    match fetcher_branch sdata header with
    | .ok s => s
    | .error _ => static_schedule_response SCHEDULE_DATA weekday_name date_formatted current_week_type
  | some .raised => static_schedule_response SCHEDULE_DATA weekday_name date_formatted current_week_type
  | none => static_schedule_response SCHEDULE_DATA weekday_name date_formatted current_week_type

/-- Outcome of `request.get_json()` inside the webhook handler
(web_server.py line 137): by Flask default semantics the call raises on an
undecodable body and otherwise returns the decoded payload (`None` for a
JSON `null`). -/
inductive GetJsonResult : Type where
  | raised
  | value (v : Option JVal)

/-- Embeds the logging inspection of the payload (web_server.py lines
143-160): the defaulting accesses it performs can raise on payloads that
are not dict-shaped, which the enclosing `except` turns into a 500. -/
def inspectUpdate (u : JVal) : Except PyErr Unit := do
  let _ ← u.getD ("update_id") (.str ("unknown"))
  if (← u.memKey ("message")) then
    let message ← u.item ("message")
    let fromObj ← message.getD ("from") (.obj [])
    let _ ← fromObj.getD ("id") (.str ("unknown"))
    let _ ← message.getD ("text") (.str ("no text"))
  else if (← u.memKey ("callback_query")) then
    let callback ← u.item ("callback_query")
    let fromObj ← callback.getD ("from") (.obj [])
    let _ ← fromObj.getD ("id") (.str ("unknown"))
    let _ ← callback.getD ("data") (.str ("no data"))
  else if (← u.memKey ("edited_message")) then
    pure ()
  else
    let _ ← u.keys
    pure ()

/-- Embeds the body of the `/webhook` route after a successful
`get_json` (web_server.py lines 137-176): falsy payloads answer 200
without touching the queue; otherwise, after the logging inspection, the
payload is appended to the shared queue and 200 returned when the worker
thread is alive, else 500 with the queue untouched. -/
def webhook_handler (update_data : Option JVal) (worker_alive : Bool)
    (update_queue : List JVal) : Except PyErr (String × Nat × List JVal) :=
  match update_data with
  | none => .ok ("OK", 200, update_queue)
  | some u =>
    if u.truthy then
      match inspectUpdate u with
      | .error e => .error e
      | .ok _ =>
        if worker_alive then .ok ("OK", 200, update_queue ++ [u])
        else .ok ("Update processor not running", 500, update_queue)
    else .ok ("OK", 200, update_queue)

/-- Embeds the `/webhook` route (web_server.py lines 132-180): the result
is the response text, the HTTP status, and the queue after the request;
any Python exception — including one raised by `get_json` itself — hits
the `except Exception` handler and yields a 500 with the queue unchanged. -/
def webhook (body : GetJsonResult) (worker_alive : Bool)
    (update_queue : List JVal) : String × Nat × List JVal :=
  match body with
  | .raised => ("Error processing webhook", 500, update_queue)
  | .value v =>
    match webhook_handler v worker_alive update_queue with
    | .ok r => r
    | .error _ => ("Error processing webhook", 500, update_queue)

/-- State of the webhook queue system (web_server.py): the pending queue,
the sequence of updates already handed to `process_update`, the ghost
history of accepted enqueues, and whether the worker thread is alive. -/
structure WebState (α : Type) where
  queue : List α
  dispatched : List α
  enqueued : List α
  workerAlive : Bool

/-- Initial state: empty queue, worker started (web_server.py line 111). -/
def initWebState (α : Type) : WebState α := ⟨[], [], [], true⟩

/-- Atomic transitions of the queue system.  The queue lock makes each
transition atomic: the handler appends under `queue_lock` (web_server.py
lines 166-169) only while the worker thread is alive, the worker pops the
oldest element under the same lock and dispatches it (lines 62-87), and
shutdown clears the alive flag (lines 114-125). -/
inductive WebStep {α : Type} : WebState α → WebState α → Prop
  | enqueue (s : WebState α) (u : α) (halive : s.workerAlive = true) :
      WebStep s ⟨s.queue ++ [u], s.dispatched, s.enqueued ++ [u], s.workerAlive⟩
  | dispatch (s : WebState α) (u : α) (rest : List α) (halive : s.workerAlive = true)
      (hq : s.queue = u :: rest) :
      WebStep s ⟨rest, s.dispatched ++ [u], s.enqueued, s.workerAlive⟩
  | shutdown (s : WebState α) :
      WebStep s ⟨s.queue, s.dispatched, s.enqueued, false⟩

/-- States reachable from the initial state by the webhook/worker steps. -/
inductive WebReach {α : Type} : WebState α → Prop
  | init : WebReach (initWebState α)
  | step {s t : WebState α} : WebReach s → WebStep s t → WebReach t

/-- Content of the flat `bot_users.pkl` file (main.py lines 38, 41-59):
missing, unreadable, or a pickled value enumerating the stored set. -/
inductive UsersFile : Type where
  | absent
  | corrupt
  | stored (ids : List Int)

/-- Embeds `load_users` (main.py lines 41-50): a missing file and a read
failure both yield the empty set; otherwise the pickled set is rebuilt. -/
def load_users : UsersFile → Finset Int
  | .absent => ∅
  | .corrupt => ∅
  | .stored ids => ids.toFinset

/-- Embeds a successful `save_users` (main.py lines 52-59): the whole set
is written out; pickling a set serialises its elements and is modelled by
storing one enumeration of them (a write failure would leave the previous
file, which the round-trip claim excludes). -/
def save_users (users : Finset Int) : UsersFile :=
  .stored (users.sort (fun a b => a ≤ b))

/-- Values stored into `class_info` by the extraction phase of
`_parse_lesson_element` (itmo_schedule.py lines 925-991): each field is
`some v` exactly when the corresponding DOM search chain stored the key,
with `v` the stored text (after the source's clean-ups). -/
structure LessonFields where
  time? : Option String
  subject? : Option String
  teacher? : Option String
  room? : Option String
  address? : Option String

/-- Model of Python dict.setdefault on an insertion-ordered field list. -/
def setdefault (fs : List (String × JVal)) (k : String) (v : JVal) : List (String × JVal) :=
  if fs.any (fun p => p.1 == k) then fs else fs ++ [(k, v)]

/-- Appends a key when the extraction produced a value, preserving the
source's insertion order. -/
def putOpt (fs : List (String × JVal)) (k : String) (v : Option String) : List (String × JVal) :=
  match v with
  | some s => fs ++ [(k, .str s)]
  | none => fs

/-- Embeds the decision tail of `_parse_lesson_element` (itmo_schedule.py
lines 925-1003): build `class_info` from the extracted fields in source
order, apply the four `setdefault` calls (lines 994-997), then keep the
entry only under the test of line 1000 — `'subject' in class_info and
class_info['subject'] != 'Предмет не указан'`. -/
def parse_lesson_element (f : LessonFields) : Option JVal :=
  let ci := putOpt (putOpt (putOpt (putOpt (putOpt [] ("time") f.time?)
    ("subject") f.subject?) ("teacher") f.teacher?) ("room") f.room?) ("address") f.address?
  let ci := setdefault ci ("time") (.str ("Время не указано"))
  let ci := setdefault ci ("subject") (.str ("Предмет не указан"))
  let ci := setdefault ci ("room") (.str ("Аудитория не указана"))
  let ci := setdefault ci ("address") (.str ("Адрес не указан"))
  if ci.any (fun p => p.1 == "subject") &&
      (match lookupField ("subject") ci with
       | some v => v.neqStr ("Предмет не указан")
       | none => false) then
    some (.obj ci)
  else
    none

/-- Embeds the key-priority scan loops of `_extract_class_info_from_api`
(itmo_schedule.py lines 1064-1104): the first listed key present in the
item wins and its value is returned. -/
def findFirstKey (item : JVal) : List String → Except PyErr (Option JVal)
  | [] => .ok none
  | k :: rest => do
    if (← item.memKey k) then
      return some (← item.item k)
    else
      findFirstKey item rest

/-- Python `a or b` on embedded values (first truthy operand). -/
def pyOr (a b : JVal) : JVal := if a.truthy then a else b

/-- Embeds the body of `_extract_class_info_from_api` (itmo_schedule.py
lines 1054-1113) as an exception-transparent computation: scan the
alternative key lists for time, subject, room, address and teacher; keep
the entry when a subject or a time was found, defaulting the other
fields; otherwise drop it. -/
def extract_api_aux (item : JVal) : Except PyErr (Option JVal) := do
  let mut ci : List (String × JVal) := []
  match (← findFirstKey item [("time"), ("start_time"), ("time_start"), ("begin_time"), ("lesson_time"), ("timeRange")]) with
  | some timeVal =>
    match timeVal with
    | .obj _ =>
      let start := pyOr (← timeVal.get1 ("start")) (← timeVal.get1 ("begin"))
      let finish := pyOr (← timeVal.get1 ("end")) (← timeVal.get1 ("finish"))
      if start.truthy && finish.truthy then
        ci := ci ++ [(("time"), JVal.str (pyStr start ++ "-" ++ pyStr finish))]
      else if start.truthy then
        ci := ci ++ [(("time"), JVal.str (pyStr start))]
    | _ => ci := ci ++ [(("time"), JVal.str (pyStr timeVal))]
  | none => pure ()
  match (← findFirstKey item [("subject"), ("name"), ("title"), ("lesson_name"), ("discipline"), ("subjectName")]) with
  | some v => ci := ci ++ [(("subject"), JVal.str (pyStr v))]
  | none => pure ()
  match (← findFirstKey item [("room"), ("audience"), ("auditorium"), ("classroom"), ("room_number"), ("roomNumber")]) with
  | some v => ci := ci ++ [(("room"), JVal.str (pyStr v))]
  | none => pure ()
  match (← findFirstKey item [("address"), ("location"), ("building"), ("address_name"), ("buildingAddress")]) with
  | some v => ci := ci ++ [(("address"), JVal.str (pyStr v))]
  | none => pure ()
  match (← findFirstKey item [("teacher"), ("instructor"), ("lecturer"), ("teacher_name"), ("teacherName"), ("educator")]) with
  | some teacherVal =>
    match teacherVal with
    | .obj _ =>
      let name := pyOr (← teacherVal.get1 ("name")) (← teacherVal.get1 ("fullName"))
      if name.truthy then
        ci := ci ++ [(("teacher"), JVal.str (pyStr name))]
    | _ => ci := ci ++ [(("teacher"), JVal.str (pyStr teacherVal))]
  | none => pure ()
  if ci.any (fun p => p.1 == "subject") || ci.any (fun p => p.1 == "time") then
    let ci2 := setdefault (setdefault (setdefault (setdefault ci ("time") (.str ("Время не указано")))
      ("subject") (.str ("Предмет не указан"))) ("room") (.str ("Аудитория не указана")))
      ("address") (.str ("Адрес не указан"))
    return some (.obj ci2)
  else
    return none

/-- Embeds `_extract_class_info_from_api` (itmo_schedule.py lines
1044-1117): its own try/except turns any exception into `None`. -/
def extract_class_info_from_api (item : JVal) : Option JVal :=
  match extract_api_aux item with
  | .ok r => r
  | .error _ => none

/-- A per-day result of `ITMOScheduleFetcher.get_schedule_for_date`: both
parsers return a dict carrying the requested date and the class list
(itmo_schedule.py lines 843-846 and 1020-1023).  Days are day numbers. -/
structure DaySched where
  date : Nat
  classes : List JVal

/-- Embeds `get_week_schedule` (itmo_schedule.py lines 1135-1143) given
the per-day fetch behaviour: loop over offsets 0..6 from the start date
in order and append each non-`None` day result (the per-day dict is
non-empty, so Python truthiness coincides with being non-`None`). -/
def get_week_schedule (fetch : Nat → Option DaySched) (start_date : Nat) : List DaySched :=
  (List.range 7).foldl
    (fun acc day_offset =>
      match fetch (start_date + day_offset) with
      | some day_schedule => acc ++ [day_schedule]
      | none => acc)
    []

/-- The seven consecutive day numbers the week loop requests, in request
order. -/
def weekDays (start_date : Nat) : List Nat := (List.range 7).map (fun off => start_date + off)

/-- A received HTTP response as the fetcher observes it: status code,
final URL, and body text. -/
structure HttpResponse where
  status : Nat
  url : String
  text : String

/-- The network requests `authenticate` can issue, in the order the source
can reach them (itmo_schedule.py lines 51-709). -/
inductive NetCall : Type where
  | getScheduleNoRedirect
  | getScheduleRedirect
  | getOauthSynth
  | getAuthPage
  | getScheduleVerify
  | postLoginForm
  | getDirectAuthPage
  | postDirectAuth
  | getSessionRefresh
deriving DecidableEq

/-- Environment of `_direct_keycloak_auth_with_params` (itmo_schedule.py
lines 490-709): the responses the network returns and the outcomes of the
HTML parses.  All /schedule verification GETs of this function target the
same resource within one session and share one modelled response. -/
structure DirectAuthEnv where
  page : HttpResponse
  formFound : Bool
  formFieldsFound : Bool
  postResp : HttpResponse
  postHistory : Bool
  verify : HttpResponse
  refresh : HttpResponse

/-- Embeds the result checks after the POST of
`_direct_keycloak_auth_with_params` (itmo_schedule.py lines 651-703). -/
def direct_auth_post_checks (d : DirectAuthEnv) (calls : List NetCall) : Bool × List NetCall :=
  if d.postResp.status == 400 then
    let calls := calls ++ [NetCall.getScheduleVerify]
    if d.verify.status == 200 then (true, calls)
    else
      let calls := calls ++ [NetCall.getSessionRefresh]
      if d.refresh.status == 200 && containsSub d.refresh.url ("my.itmo.ru") then
        let calls := calls ++ [NetCall.getScheduleVerify]
        if d.verify.status == 200 then (true, calls) else (false, calls)
      else (false, calls)
  else if d.postResp.status == 200 || d.postResp.status == 302 || d.postResp.status == 303 ||
      d.postResp.status == 307 || d.postResp.status == 308 then
    if containsSub d.postResp.url ("my.itmo.ru") || containsSub (strLower d.postResp.url) ("schedule") then
      (true, calls)
    else if d.postHistory then
      let calls := calls ++ [NetCall.getScheduleVerify]
      if d.verify.status == 200 then (true, calls) else (false, calls)
    else if containsSub (strLower d.postResp.url) ("error") ||
        containsSub (lowerTake d.postResp.text 500) ("error") then
      (false, calls)
    else (false, calls)
  else (false, calls)

/-- Embeds `_direct_keycloak_auth_with_params` (itmo_schedule.py lines
490-709) given tab id and session code: fetch the authentication page
(redirect following collapsed into the final response), re-probe the
schedule on a 400, short-circuit when already back on my.itmo.ru, then
submit credentials — by direct POST when no form is present (SPA page),
through the form otherwise — and check the outcome. -/
def direct_keycloak_auth (d : DirectAuthEnv) (calls : List NetCall) : Bool × List NetCall :=
  let calls := calls ++ [NetCall.getDirectAuthPage]
  if d.page.status != 200 then
    if d.page.status == 400 then
      let calls := calls ++ [NetCall.getScheduleVerify]
      if d.verify.status == 200 then (true, calls) else (false, calls)
    else (false, calls)
  else
    if containsSub d.page.url ("my.itmo.ru") && !containsSub d.page.url ("id.itmo.ru") then
      let calls := calls ++ [NetCall.getScheduleVerify]
      if d.verify.status == 200 then (true, calls)
      else direct_auth_submit d calls
    else direct_auth_submit d calls
where
  /-- The submission half (itmo_schedule.py lines 570-649). -/
  direct_auth_submit (d : DirectAuthEnv) (calls : List NetCall) : Bool × List NetCall :=
    if !d.formFound then
      direct_auth_post_checks d (calls ++ [NetCall.postDirectAuth])
    else
      if !d.formFieldsFound then (false, calls)
      else direct_auth_post_checks d (calls ++ [NetCall.postDirectAuth])

/-- Environment of `authenticate` (itmo_schedule.py lines 51-488): every
network response it can observe and every HTML/script parse outcome, one
field per source site. -/
structure AuthEnv where
  probe : HttpResponse
  probeIndicators : Bool
  sched : HttpResponse
  pageOauthLink : Option String
  pageMetaRefresh : Option String
  oauthProbe : HttpResponse
  oauthProbeLocation : Option String
  authPage : HttpResponse
  formFound : Bool
  formFieldsFound : Bool
  scriptTab : Option String
  scriptSession : Option String
  loginResp : HttpResponse
  loginHistory : Bool
  verifyAfterAuthPage : HttpResponse
  verifyAfterLogin : HttpResponse
  directEnv : DirectAuthEnv

/-- The probe short-circuit condition of `authenticate` step 0
(itmo_schedule.py lines 66-75): a 200 probe response whose URL mentions
the schedule resource, is not on id.itmo.ru and not a login URL, and whose
page shows schedule-shaped markup (lesson/schedule containers found by the
DOM query, or the word `schedule` within the first 1000 lower-cased
characters of the body). -/
def probe_short_circuit (env : AuthEnv) : Bool :=
  env.probe.status == 200 &&
  (containsSub (strLower env.probe.url) ("schedule") || containsSub env.probe.url ("my.itmo.ru/schedule")) &&
  (!containsSub env.probe.url ("id.itmo.ru") && !containsSub (strLower env.probe.url) ("login")) &&
  (env.probeIndicators || containsSub (lowerTake env.probe.text 1000) ("schedule"))

/-- Embeds the login-page half of `authenticate` (itmo_schedule.py lines
157-488) once an authorization URL is at hand: fetch the login page,
short-circuit when the response already sits on my.itmo.ru (verified
through a schedule GET, lines 161-170, or directly at lines 192-198),
bail out on OAuth errors or non-200 pages, then either submit the parsed
login form (lines 389-479) or fall back to the scripted Keycloak data
(lines 257-361), failing when neither a form nor the tab/session pair is
available (lines 363-387). -/
def auth_login_page (env : AuthEnv) (calls : List NetCall) : Bool × Bool × List NetCall :=
  let calls := calls ++ [NetCall.getAuthPage]
  let ap := env.authPage
  let afterAlready := fun (calls : List NetCall) =>
    if containsSub ap.url ("error=") then (false, false, calls)
    else if ap.status != 200 then (false, false, calls)
    else if containsSub ap.url ("my.itmo.ru") && containsSub (strLower ap.url) ("schedule") then
      (true, true, calls)
    else if env.formFound then
      if !env.formFieldsFound then (false, false, calls)
      else
        let calls := calls ++ [NetCall.postLoginForm]
        if (env.loginResp.status == 200 || env.loginResp.status == 302) &&
            (containsSub env.loginResp.url ("my.itmo.ru") || env.loginHistory) then
          let calls := calls ++ [NetCall.getScheduleVerify]
          if env.verifyAfterLogin.status == 200 && containsSub env.verifyAfterLogin.url ("schedule") then
            (true, true, calls)
          else (false, false, calls)
        else (false, false, calls)
    else
      match env.scriptTab, env.scriptSession with
      | some _, some _ =>
        let r := direct_keycloak_auth env.directEnv calls
        (r.1, r.1, r.2)
      | _, _ => (false, false, calls)
  if (ap.status == 200 || ap.status == 302 || ap.status == 303 || ap.status == 307 || ap.status == 308) &&
      containsSub ap.url ("my.itmo.ru") && !containsSub ap.url ("id.itmo.ru") then
    let calls := calls ++ [NetCall.getScheduleVerify]
    if env.verifyAfterAuthPage.status == 200 && containsSub env.verifyAfterAuthPage.url ("schedule") then
      (true, true, calls)
    else afterAlready calls
  else afterAlready calls

/-- Embeds steps 1-2 of `authenticate` (itmo_schedule.py lines 80-155):
request the schedule following redirects and locate the authorization
endpoint from the redirect URL, an explicit page link, a meta refresh, or
the synthesized endpoint probed with PKCE parameters (bailing out when
that URL carries an OAuth error). -/
def auth_resume (env : AuthEnv) (calls : List NetCall) : Bool × Bool × List NetCall :=
  let calls := calls ++ [NetCall.getScheduleRedirect]
  if containsSub env.sched.url ("id.itmo.ru") then
    auth_login_page env calls
  else
    match env.pageOauthLink with
    | some _ => auth_login_page env calls
    | none =>
      match env.pageMetaRefresh with
      | some _ => auth_login_page env calls
      | none =>
        let calls := calls ++ [NetCall.getOauthSynth]
        let st := env.oauthProbe.status
        let resolved :=
          if st == 302 || st == 301 || st == 303 || st == 307 || st == 308 then
            match env.oauthProbeLocation with
            | some loc => loc
            | none => env.oauthProbe.url
          else env.oauthProbe.url
        if containsSub resolved ("error=") then (false, false, calls)
        else auth_login_page env calls

/-- Embeds `authenticate` (itmo_schedule.py lines 51-488) as a function of
its network/parse environment, returning the boolean result, the final
`is_authenticated` flag (initially false, set exactly on the success
paths), and the ordered trace of network requests issued: step 0 probes
the schedule without redirects and, when `probe_short_circuit` holds,
returns success immediately; otherwise the login machinery runs. -/
def authenticate (env : AuthEnv) : Bool × Bool × List NetCall :=
  if probe_short_circuit env then
    (true, true, [NetCall.getScheduleNoRedirect])
  else
    auth_resume env [NetCall.getScheduleNoRedirect]

/-- Modelled from the spec: strict `HH:MM` parsing used by the static
day-builder of §4.3, whose implementation is not among the repository
sources (only its consumer `format_class_info` and the record format of
generate_schedule_by_date.py are).  Exactly two digits, a colon, two
digits, with a valid hour and minute; the result is minutes after
midnight. -/
def parseHM (s : String) : Option Nat :=
  match s.data with
  | [h1, h2, c, m1, m2] =>
    if c == Char.ofNat 58 && h1.isDigit && h2.isDigit && m1.isDigit && m2.isDigit then
      let hh := (h1.toNat - 48) * 10 + (h2.toNat - 48)
      let mm := (m1.toNat - 48) * 10 + (m2.toNat - 48)
      if hh < 24 && mm < 60 then some (hh * 60 + mm) else none
    else none
  | _ => none

/-- Two-digit zero-padded rendering of a number below 100. -/
def pad2 (n : Nat) : String := if n < 10 then "0" ++ toString n else toString n

/-- Renders minutes after midnight back to `HH:MM`. -/
def fmtHM (m : Nat) : String := pad2 (m / 60) ++ ":" ++ pad2 (m % 60)

/-- A raw class record paired with its parsed start and end minutes. -/
structure Timed where
  item : JVal
  start : Nat
  stop : Nat

/-- Modelled from the spec: reading the `start`/`end` fields of a raw
class record (the record format documented in
generate_schedule_by_date.py); a record whose pair does not parse
strictly as `HH:MM` is skipped, per §4.3. -/
def timedOf (j : JVal) : Option Timed :=
  match j with
  | .obj fs =>
    match lookupField ("start") fs, lookupField ("end") fs with
    | some (.str s), some (.str e) =>
      match parseHM s, parseHM e with
      | some a, some b => some ⟨j, a, b⟩
      | _, _ => none
    | _, _ => none
  | _ => none

/-- Insertion of a record into a start-time-sorted list. -/
def insertByStart (t : Timed) : List Timed → List Timed
  | [] => [t]
  | u :: us => if t.start ≤ u.start then t :: u :: us else u :: insertByStart t us

/-- Modelled from the spec: sort the day's records by start time (§4.3). -/
def sortByStart : List Timed → List Timed
  | [] => []
  | t :: ts => insertByStart t (sortByStart ts)

/-- Modelled from the spec: the synthetic free-window entry between two
consecutive classes, carrying the gap bounds and its duration in the
shape `format_class_info` consumes (a dict with `window` and `duration`
keys, rendered as `🪟 Окно 10:00-10:40 (40 мин)`). -/
def windowObj (a b : Nat) : JVal :=
  .obj [(("window"), JVal.str (fmtHM a ++ "-" ++ fmtHM b)), (("duration"), JVal.str (toString (b - a) ++ " мин"))]

/-- Modelled from the spec: walk the sorted records and insert exactly
one free-window entry between each pair of consecutive classes whose gap
exceeds the 30-minute threshold (§4.3). -/
def insertWindows : List Timed → List JVal
  | [] => []
  | [t] => [t.item]
  | a :: b :: rest =>
    if a.stop + 30 < b.start then
      a.item :: windowObj a.stop b.start :: insertWindows (b :: rest)
    else
      a.item :: insertWindows (b :: rest)

/-- Modelled from the spec: the §4.3 day-builder — parse the records'
times (skipping malformed pairs), sort by start time, and interleave the
synthetic free-window entries. -/
def build_day_schedule (l : List JVal) : List JVal :=
  insertWindows (sortByStart (l.filterMap timedOf))

/-- Whether an embedded dict carries the given key (the discriminator
`format_class_info` uses to recognise free-window entries). -/
def hasKeyB (j : JVal) (k : String) : Bool :=
  match j with
  | .obj fs => fs.any (fun p => p.1 == k)
  | _ => false

/-- Number of free-window entries in a built day sequence. -/
def countWindows (l : List JVal) : Nat := l.countP (fun j => hasKeyB j ("window"))

/-- Number of consecutive pairs in a sorted record list whose gap exceeds
30 minutes. -/
def countGaps : List Timed → Nat
  | a :: b :: rest => (if a.stop + 30 < b.start then 1 else 0) + countGaps (b :: rest)
  | _ => 0

/-- Example raw record: a class from 09:00 to 10:00. -/
def exLesson1 : JVal :=
  JVal.obj [(("subject"), JVal.str ("Лекция 1")), (("start"), JVal.str ("09:00")), (("end"), JVal.str ("10:00"))]

/-- Example raw record: a class from 10:40 to 12:00. -/
def exLesson2 : JVal :=
  JVal.obj [(("subject"), JVal.str ("Лекция 2")), (("start"), JVal.str ("10:40")), (("end"), JVal.str ("12:00"))]

/-- Example raw record: a class from 09:00 to 10:00 (no-gap pair, first). -/
def exLesson3 : JVal :=
  JVal.obj [(("subject"), JVal.str ("Семинар 1")), (("start"), JVal.str ("09:00")), (("end"), JVal.str ("10:00"))]

/-- Example raw record: a class from 10:30 to 12:00 — a 30-minute gap,
which does not exceed the threshold. -/
def exLesson4 : JVal :=
  JVal.obj [(("subject"), JVal.str ("Семинар 2")), (("start"), JVal.str ("10:30")), (("end"), JVal.str ("12:00"))]

/-- A static `SCHEDULE_DATA` in the week/day shape main.py consumes, with
real Monday data on week type 2. -/
def c3StaticData : JVal :=
  JVal.obj [(("schedule"), JVal.arr [JVal.obj [(("week"), JVal.num 2),
    (("days"), JVal.arr [JVal.obj [(("day"), JVal.str ("Понедельник")),
      (("classes"), JVal.arr [JVal.obj [(("subject"), JVal.str ("Математика")),
        (("time"), JVal.str ("09:00-10:30"))]])]])]])]

/-- The date-keyed static schedule `{"25.12": []}` of the end-to-end
scenario (the format generate_schedule_by_date.py produces). -/
def c4DateKeyedEmpty : JVal := JVal.obj [(("25.12"), JVal.arr [])]

/-- The date-keyed static schedule holding one Math record for `9.02`. -/
def c4DateKeyedMath : JVal :=
  JVal.obj [(("9.02"), JVal.arr [JVal.obj [(("subject"), JVal.str ("Math")),
    (("start"), JVal.str ("09:50")), (("end"), JVal.str ("11:20"))]])]

/-- A minimal well-formed Telegram update payload. -/
def c7Update : JVal := JVal.obj [(("update_id"), JVal.num 1)]

/-- A dummy response for environment slots never reached. -/
def noResp : HttpResponse := ⟨0, (""), ("")⟩

/-- An authentication environment whose probe already answers 200 on the
schedule URL with schedule-shaped markup; all later slots are dummies. -/
def c8Env : AuthEnv :=
  ⟨⟨200, ("https://my.itmo.ru/schedule"), ("страница расписания")⟩, true,
   noResp, none, none, noResp, none, noResp, false, false, none, none,
   noResp, false, noResp, noResp, ⟨noResp, false, false, noResp, false, noResp, noResp⟩⟩

theorem webqueue_invariant {α : Type} (s : WebState α) (h : WebReach s) :
    s.dispatched ++ s.queue = s.enqueued := by
  induction h with
  | init => rfl
  | step hr hstep ih =>
    rename_i s0 t0
    cases hstep with
    | enqueue u halive =>
      show s0.dispatched ++ (s0.queue ++ [u]) = s0.enqueued ++ [u]
      rw [← List.append_assoc, ih]
    | dispatch u rest halive hq =>
      show (s0.dispatched ++ [u]) ++ rest = s0.enqueued
      rw [List.append_assoc]
      rw [hq] at ih
      exact ih
    | shutdown => exact ih

/-- C1: in every reachable state of the webhook queue system, the sequence
already dispatched to the bot followed by the pending queue is exactly the
sequence of accepted enqueues — the worker dispatches updates in strict
FIFO order, and what has been dispatched is always an order-preserving
prefix of what was enqueued while the worker was alive. -/
theorem c1_fifo_order {α : Type} (s : WebState α) (h : WebReach s) :
    s.dispatched ++ s.queue = s.enqueued ∧ ∃ pending, s.dispatched ++ pending = s.enqueued := by
  have main := webqueue_invariant s h
  exact ⟨main, s.queue, main⟩

/-- Witness for C1: a concrete run — enqueue 1, enqueue 2, dispatch once —
reaches the state with dispatched [1] and queue [2], and the FIFO theorem
applies to it. -/
theorem c1_fifo_order_witness :
    (WebReach (⟨[2], [1], [1, 2], true⟩ : WebState Nat)) ∧
      (⟨[2], [1], [1, 2], true⟩ : WebState Nat).dispatched ++ (⟨[2], [1], [1, 2], true⟩ : WebState Nat).queue
        = (⟨[2], [1], [1, 2], true⟩ : WebState Nat).enqueued := by
  have h0 : WebReach (initWebState Nat) := WebReach.init
  have h1 : WebReach (⟨[1], [], [1], true⟩ : WebState Nat) :=
    WebReach.step h0 (WebStep.enqueue _ 1 rfl)
  have h2 : WebReach (⟨[1, 2], [], [1, 2], true⟩ : WebState Nat) :=
    WebReach.step h1 (WebStep.enqueue _ 2 rfl)
  have h3 : WebReach (⟨[2], [1], [1, 2], true⟩ : WebState Nat) :=
    WebReach.step h2 (WebStep.dispatch _ 1 [2] rfl rfl)
  exact ⟨h3, (c1_fifo_order _ h3).1⟩

/-- C9: saving the user registry and loading it back yields exactly the
same set of identifiers (a successful write stores an enumeration of the
set; loading rebuilds the set from it). -/
theorem c9_users_roundtrip : ∀ users : Finset Int, load_users (save_users users) = users := by
  intro users
  simp [load_users, save_users, Finset.sort_toFinset]

/-- C3 counterexample: with the live fetcher active and failing by
returning `None` (its failure convention), and with the static mapping
holding data for the requested Monday, `get_schedule_for_date` answers
the no-classes string — it neither falls back to the static schedule
(whose rendering differs) nor returns the generic error string. -/
theorem c3_fetcher_none_counterexample :
    get_schedule_for_date (some (.fetched none)) (some c3StaticData) ("Понедельник") ("06.10.2025") 2
        = "📅 Понедельник (06.10.2025)\n\n🆓 Нет занятий"
      ∧ get_schedule_for_date none (some c3StaticData) ("Понедельник") ("06.10.2025") 2
        = "📅 Понедельник (06.10.2025)\n\n📚 Математика\n⏰ 09:00-10:30\n\n"
      ∧ ("📅 Понедельник (06.10.2025)\n\n🆓 Нет занятий" : String)
          ≠ "📅 Понедельник (06.10.2025)\n\n📚 Математика\n⏰ 09:00-10:30\n\n"
      ∧ ("📅 Понедельник (06.10.2025)\n\n🆓 Нет занятий" : String)
          ≠ "❌ Ошибка при получении расписания" := by
  refine ⟨rfl, rfl, by decide, by decide⟩

/-- C3 (amended): when the active fetcher fails by returning `None` or an
empty class list, the caller answers the no-classes response without
consulting the static mapping at all; the static fallback (and, through
it, the generic error string when the static data has nothing for the
date) runs exactly when the fetcher raises, in which case the behaviour
coincides with the fetcher-less static path. -/
theorem c3_fallback_only_on_exception :
    ∀ (sd : Option JVal) (w d : String) (wt : Int),
      get_schedule_for_date (some (.fetched none)) sd w d wt
          = "📅 " ++ w ++ " (" ++ d ++ ")\n\n" ++ "🆓 Нет занятий"
        ∧ get_schedule_for_date
            (some (.fetched (some (JVal.obj [(("date"), JVal.str d), (("classes"), JVal.arr [])])))) sd w d wt
          = "📅 " ++ w ++ " (" ++ d ++ ")\n\n" ++ "🆓 Нет занятий"
        ∧ get_schedule_for_date (some .raised) sd w d wt = get_schedule_for_date none sd w d wt
        ∧ get_schedule_for_date (some .raised) sd w d wt = static_schedule_response sd w d wt := by
  intro sd w d wt
  exact ⟨rfl, rfl, rfl, rfl⟩

/-- C4: with a date-keyed static schedule configured (the format the
repository's generator produces), the static branch of
`get_schedule_for_date` crashes on the missing `schedule` key and the
caller answers the generic error string for both scenario dates — not a
day-off response and not a formatted class block. -/
theorem c4_date_keyed_schedule_error :
    ∀ wt : Int,
      get_schedule_for_date none (some c4DateKeyedEmpty) ("Четверг") ("25.12.2025") wt
          = "❌ Ошибка при получении расписания"
        ∧ get_schedule_for_date none (some c4DateKeyedMath) ("Понедельник") ("09.02.2026") wt
          = "❌ Ошибка при получении расписания"
        ∧ static_lookup c4DateKeyedEmpty ("Четверг") ("25.12.2025") wt = .error .keyError := by
  intro wt
  exact ⟨rfl, rfl, rfl⟩

/-- C5: a lesson container with a recognizable time but no recognizable
subject is discarded by `_parse_lesson_element` (the HTML parser keeps an
entry only when a subject was found), while the API extractor keeps the
same time-only entry with the documented placeholders — and a
subject-only entry is kept by the HTML parser with placeholders filled
in. -/
theorem c5_time_only_discarded_html_kept_api :
    parse_lesson_element ⟨some ("10:00-11:30"), none, none, none, none⟩ = none
      ∧ extract_class_info_from_api (JVal.obj [(("time"), JVal.str ("10:00-11:30"))])
          = some (JVal.obj [(("time"), JVal.str ("10:00-11:30")),
              (("subject"), JVal.str ("Предмет не указан")),
              (("room"), JVal.str ("Аудитория не указана")),
              (("address"), JVal.str ("Адрес не указан"))])
      ∧ parse_lesson_element ⟨none, some ("Математика"), none, none, none⟩
          = some (JVal.obj [(("subject"), JVal.str ("Математика")),
              (("time"), JVal.str ("Время не указано")),
              (("room"), JVal.str ("Аудитория не указана")),
              (("address"), JVal.str ("Адрес не указан"))]) := by
  exact ⟨rfl, rfl, rfl⟩

/-- C6 counterexample: two malformed webhook bodies that do not get a 200.
A body whose JSON decode raises inside `get_json` answers 500, and so does
the well-formed JSON body `[1]` — a non-dict payload on which the
handler's own attribute access raises.  Neither touches the queue, but
the claimed success status is wrong. -/
theorem c6_malformed_counterexample :
    webhook .raised true [] = ("Error processing webhook", 500, [])
      ∧ webhook (.value (some (JVal.arr [JVal.num 1]))) true []
          = ("Error processing webhook", 500, [])
      ∧ (500 : Nat) ≠ 200 := by
  exact ⟨rfl, rfl, by decide⟩

/-- C6 (amended): a malformed or empty webhook body never appends to the
queue; the handler answers 200 exactly when the decoded payload is absent
or falsy, and answers 500 — via the `except Exception` handler — when the
JSON decode raises or when the truthy payload is not dict-shaped (a
non-empty array or string). -/
theorem c6_malformed_or_empty_amended :
    ∀ (alive : Bool) (q : List JVal),
      webhook .raised alive q = ("Error processing webhook", 500, q)
        ∧ webhook (.value none) alive q = ("OK", 200, q)
        ∧ (∀ j : JVal, j.truthy = false → webhook (.value (some j)) alive q = ("OK", 200, q))
        ∧ (∀ x xs, webhook (.value (some (JVal.arr (x :: xs)))) alive q
            = ("Error processing webhook", 500, q))
        ∧ (∀ s : String, (s == "") = false → webhook (.value (some (JVal.str s))) alive q
            = ("Error processing webhook", 500, q)) := by
  intro alive q
  refine ⟨rfl, rfl, ?_, ?_, ?_⟩
  · intro j hj
    simp [webhook, webhook_handler, hj]
  · intro x xs
    rfl
  · intro s hs
    simp [webhook, webhook_handler, JVal.truthy, hs, inspectUpdate, JVal.getD]
    rfl

/-- Witness for C6 (amended): the falsy payload `{}` answers 200 and the
truthy string payload answers 500, both leaving the queue empty. -/
theorem c6_malformed_or_empty_amended_witness :
    webhook (.value (some (JVal.obj []))) true [] = ("OK", 200, [])
      ∧ webhook (.value (some (JVal.str ("hello")))) true []
          = ("Error processing webhook", 500, []) :=
  ⟨(c6_malformed_or_empty_amended true []).2.2.1 (JVal.obj []) rfl,
   (c6_malformed_or_empty_amended true []).2.2.2.2 ("hello") rfl⟩

/-- C7: for a truthy, dict-shaped update payload (one the handler's
logging inspection can read), the webhook appends it to the shared queue
and answers 200 exactly when the worker thread is alive; with the worker
down it answers the 500-equivalent and leaves the queue unchanged. -/
theorem c7_enqueue_iff_worker (u : JVal) (q : List JVal)
    (htruthy : u.truthy = true) (hinspect : inspectUpdate u = .ok ()) :
    webhook (.value (some u)) true q = ("OK", 200, q ++ [u])
      ∧ webhook (.value (some u)) false q = ("Update processor not running", 500, q) := by
  constructor <;> simp [webhook, webhook_handler, htruthy, hinspect]

/-- Witness for C7: the concrete update `{"update_id": 1}` is enqueued
with a 200 when the worker is alive and rejected with a 500 when not. -/
theorem c7_enqueue_iff_worker_witness :
    webhook (.value (some c7Update)) true [] = ("OK", 200, [c7Update])
      ∧ webhook (.value (some c7Update)) false []
          = ("Update processor not running", 500, []) :=
  c7_enqueue_iff_worker c7Update [] rfl rfl

/-- C8: whenever the initial probe of the schedule resource comes back
with status 200 on the schedule URL (not on id.itmo.ru, not a login URL)
and schedule-shaped markup, `authenticate` returns `True` with
`is_authenticated` set after exactly one network request — the probe
itself — so no login form is ever submitted and no direct authentication
POST is ever issued. -/
theorem c8_probe_short_circuit_auth (env : AuthEnv) (h : probe_short_circuit env = true) :
    authenticate env = (true, true, [NetCall.getScheduleNoRedirect])
      ∧ NetCall.postLoginForm ∉ (authenticate env).2.2
      ∧ NetCall.postDirectAuth ∉ (authenticate env).2.2 := by
  refine ⟨by simp [authenticate, h], ?_, ?_⟩ <;> simp [authenticate, h]

/-- Witness for C8: the concrete probe response `200` on
`https://my.itmo.ru/schedule` with markup indicators satisfies the guard,
and authentication succeeds on the probe alone. -/
theorem c8_probe_short_circuit_auth_witness :
    authenticate c8Env = (true, true, [NetCall.getScheduleNoRedirect]) :=
  (c8_probe_short_circuit_auth c8Env rfl).1

theorem timedOf_item {j : JVal} {t : Timed} (h : timedOf j = some t) : t.item = j := by
  unfold timedOf at h
  repeat' split at h
  all_goals simp_all
  subst h
  rfl

theorem mem_insertByStart {t u : Timed} :
    ∀ {ts : List Timed}, t ∈ insertByStart u ts → t = u ∨ t ∈ ts := by
  intro ts
  induction ts with
  | nil =>
    intro h
    simp [insertByStart] at h
    exact Or.inl h
  | cons a as ih =>
    intro h
    simp only [insertByStart] at h
    split at h
    · rcases List.mem_cons.mp h with h2 | h2
      · exact Or.inl h2
      · exact Or.inr h2
    · rcases List.mem_cons.mp h with h2 | h2
      · exact Or.inr (by simp [h2])
      · rcases ih h2 with h3 | h3
        · exact Or.inl h3
        · exact Or.inr (by simp [h3])

theorem mem_sortByStart {t : Timed} : ∀ {ts : List Timed}, t ∈ sortByStart ts → t ∈ ts := by
  intro ts
  induction ts with
  | nil => intro h; simp [sortByStart] at h
  | cons a as ih =>
    intro h
    simp only [sortByStart] at h
    rcases mem_insertByStart h with h2 | h2
    · simp [h2]
    · exact List.mem_cons_of_mem _ (ih h2)

theorem hasKeyB_windowObj (a b : Nat) : hasKeyB (windowObj a b) ("window") = true := rfl

theorem insertWindows_count : ∀ ts : List Timed,
    (∀ t ∈ ts, hasKeyB t.item ("window") = false) →
    countWindows (insertWindows ts) = countGaps ts
  | [] => fun _ => rfl
  | [t] => fun h => by
    simp [insertWindows, countWindows, List.countP_cons, h t (by simp), countGaps]
  | a :: b :: rest => fun h => by
    have ha : hasKeyB a.item ("window") = false := h a (by simp)
    have ih := insertWindows_count (b :: rest) (fun t ht => h t (List.mem_cons_of_mem _ ht))
    by_cases hg : a.stop + 30 < b.start
    · simp only [insertWindows, if_pos hg, countWindows, List.countP_cons, hasKeyB_windowObj, ha]
      simp only [countWindows] at ih
      rw [ih]
      simp [countGaps, hg]
      omega
    · simp only [insertWindows, if_neg hg, countWindows, List.countP_cons, ha]
      simp only [countWindows] at ih
      rw [ih]
      simp [countGaps, hg]

theorem build_day_windows_eq (l : List JVal) (hl : ∀ j ∈ l, hasKeyB j ("window") = false) :
    countWindows (build_day_schedule l) = countGaps (sortByStart (l.filterMap timedOf)) := by
  apply insertWindows_count
  intro t ht
  have h1 : t ∈ l.filterMap timedOf := mem_sortByStart ht
  rcases List.mem_filterMap.mp h1 with ⟨j, hj, hje⟩
  rw [timedOf_item hje]
  exact hl j hj

/-- C2: the day-builder (modelled from the spec, §4.3) emits exactly one
synthetic free-window entry per consecutive pair of sorted classes whose
gap exceeds 30 minutes — the number of window entries equals the number of
such gaps, and is zero when no gap exceeds the threshold; on the input
`[09:00-10:00, 10:40-12:00]` it emits exactly the one window entry
`10:00-10:40` of duration `40 мин` between the two classes, which
`format_class_info` renders as `🪟 Окно 10:00-10:40 (40 мин)`; on the
30-minute-gap input it emits no window entry. -/
theorem c2_day_builder_windows :
    (∀ l : List JVal, (∀ j ∈ l, hasKeyB j ("window") = false) →
        countWindows (build_day_schedule l) = countGaps (sortByStart (l.filterMap timedOf)))
      ∧ (∀ l : List JVal, (∀ j ∈ l, hasKeyB j ("window") = false) →
          countGaps (sortByStart (l.filterMap timedOf)) = 0 →
          countWindows (build_day_schedule l) = 0)
      ∧ build_day_schedule [exLesson1, exLesson2] = [exLesson1, windowObj 600 640, exLesson2]
      ∧ windowObj 600 640
          = JVal.obj [(("window"), JVal.str ("10:00-10:40")), (("duration"), JVal.str ("40 мин"))]
      ∧ format_class_info (windowObj 600 640) = .ok ("🪟 Окно 10:00-10:40 (40 мин)")
      ∧ build_day_schedule [exLesson3, exLesson4] = [exLesson3, exLesson4] := by
  refine ⟨build_day_windows_eq, ?_, rfl, rfl, rfl, rfl⟩
  intro l hl h0
  rw [build_day_windows_eq l hl, h0]

/-- Witness for C2: the count equality instantiated on the concrete
two-class day. -/
theorem c2_day_builder_windows_witness :
    countWindows (build_day_schedule [exLesson1, exLesson2])
      = countGaps (sortByStart ([exLesson1, exLesson2].filterMap timedOf)) := by
  apply c2_day_builder_windows.1
  intro j hj
  rcases List.mem_cons.mp hj with h | h
  · rw [h]; rfl
  · rcases List.mem_cons.mp h with h2 | h2
    · rw [h2]; rfl
    · cases h2

theorem week_foldl_eq (fetch : Nat → Option DaySched) (start_date : Nat) :
    ∀ (offs : List Nat) (acc : List DaySched),
      offs.foldl (fun acc off =>
        match fetch (start_date + off) with
        | some d => acc ++ [d]
        | none => acc) acc
        = acc ++ offs.filterMap (fun off => fetch (start_date + off)) := by
  intro offs
  induction offs with
  | nil => intro acc; simp
  | cons o os ih =>
    intro acc
    simp only [List.foldl_cons, List.filterMap_cons]
    cases hf : fetch (start_date + o) with
    | none => simp only [hf]; exact ih acc
    | some d => simp only [hf]; rw [ih (acc ++ [d])]; simp

theorem get_week_schedule_eq (fetch : Nat → Option DaySched) (start_date : Nat) :
    get_week_schedule fetch start_date = (weekDays start_date).filterMap fetch := by
  unfold get_week_schedule weekDays
  rw [week_foldl_eq fetch start_date (List.range 7) []]
  rw [List.filterMap_map]
  rfl

theorem filterMap_dates (fetch : Nat → Option DaySched)
    (hd : ∀ d s, fetch d = some s → s.date = d) :
    ∀ days : List Nat,
      (days.filterMap fetch).map (fun s => s.date) = days.filter (fun d => (fetch d).isSome) := by
  intro days
  induction days with
  | nil => rfl
  | cons d ds ih =>
    cases hf : fetch d with
    | none => simp [List.filterMap_cons, hf, List.filter_cons, ih]
    | some s => simp [List.filterMap_cons, hf, List.filter_cons, ih, hd d s hf]

theorem chain_dates (fetch : Nat → Option DaySched)
    (hd : ∀ d s, fetch d = some s → s.date = d)
    (days : List Nat) (hc : days.Chain' (fun a b => a < b)) :
    (days.filterMap fetch).Chain' (fun a b => a.date < b.date) := by
  have h1 : ((days.filterMap fetch).map (fun s => s.date)).Chain' (fun a b => a < b) := by
    rw [filterMap_dates fetch hd days]
    exact hc.sublist (List.filter_sublist days)
  exact (List.chain'_map (fun s : DaySched => s.date)).mp h1

theorem weekDays_chain (s : Nat) : (weekDays s).Chain' (fun a b => a < b) := by
  unfold weekDays
  rw [List.chain'_map]
  have h7 : (List.range 7).Chain' (fun a b => a < b) := (List.pairwise_lt_range 7).chain'
  exact h7.imp (fun a b h => by omega)

/-- C10: the week-schedule loop requests the 7 consecutive days starting
at the given start date, in chronological order, and returns exactly the
per-day results that were not `None`, in that order: the result is the
`filterMap` of the fetch over the 7 request days, it has at most 7
entries, its dates are strictly increasing, and each entry is the fetch
result of its own date within the requested window — days whose fetch
returned `None` are silently absent. -/
theorem c10_week_schedule (fetch : Nat → Option DaySched) (start_date : Nat)
    (hd : ∀ d s, fetch d = some s → s.date = d) :
    get_week_schedule fetch start_date = (weekDays start_date).filterMap fetch
      ∧ (get_week_schedule fetch start_date).length ≤ 7
      ∧ (get_week_schedule fetch start_date).Chain' (fun a b => a.date < b.date)
      ∧ ∀ s ∈ get_week_schedule fetch start_date,
          start_date ≤ s.date ∧ s.date < start_date + 7 ∧ fetch s.date = some s := by
  have heq := get_week_schedule_eq fetch start_date
  refine ⟨heq, ?_, ?_, ?_⟩
  · rw [heq]
    have hlen := List.length_filterMap_le fetch (weekDays start_date)
    simpa [weekDays] using hlen
  · rw [heq]
    exact chain_dates fetch hd _ (weekDays_chain start_date)
  · intro s hs
    rw [heq] at hs
    rcases List.mem_filterMap.mp hs with ⟨d, hdmem, hfd⟩
    have hdate := hd d s hfd
    simp only [weekDays, List.mem_map, List.mem_range] at hdmem
    rcases hdmem with ⟨off, hoff, hdeq⟩
    refine ⟨by omega, by omega, ?_⟩
    rw [hdate]
    exact hfd

/-- Witness for C10: the always-succeeding date-faithful fetch instantiates
the theorem at start day 10. -/
theorem c10_week_schedule_witness :
    get_week_schedule (fun d => some (⟨d, []⟩ : DaySched)) 10
      = (weekDays 10).filterMap (fun d => some (⟨d, []⟩ : DaySched)) :=
  (c10_week_schedule (fun d => some (⟨d, []⟩ : DaySched)) 10
    (fun d s h => by cases h; rfl)).1
